import Mathlib

/-!
Verification of `src/macos/impl_monitor.rs` from the xcap repository.

The file is a macOS adapter: it queries CoreGraphics / AppKit for the
connected displays and builds one flat `ImplMonitor` record per display.
We shallowly embed the adapter over an explicit environment `OSEnv` that
records the answers the operating system would give to each native call.
Fallible Rust functions returning `XCapResult` become `Except XCapError`;
a Rust panic (an `unwrap` of `None`) is modelled by an outer `Option`
layer, `none` meaning the call panics instead of returning.
-/

/-- CGDisplay from core-graphics: a thin wrapper holding the display id
(`CGDisplay::new(id)` just stores the id). -/
structure CGDisplay where
  id : Nat
deriving DecidableEq

/-- CGPoint as built at the top of `from_point` (the source casts the `i32`
coordinates to `f64`; the values are exact, so we keep them as `Int`). -/
structure CGPoint where
  x : Int
  y : Int
deriving DecidableEq

/-- CGRect as used by the adapter: origin and size of a display's bounds.
The source reads `origin.x`, `origin.y`, `size.width`, `size.height` and
casts them to `i32` / `u32`; display bounds are integral, so we model the
origin as `Int` and the size as `Nat`. -/
structure CGRect where
  originX : Int
  originY : Int
  width : Nat
  height : Nat
deriving DecidableEq

/-- The part of CGDisplayMode the adapter reads: `pixel_width()` and
`refresh_rate()` (the latter an exact rational stand-in for the `f64`). -/
structure CGDisplayMode where
  pixelWidth : Nat
  refreshRate : ℚ
deriving DecidableEq

/-- One NSScreen as seen by `screen_map`: its `localizedName` and the value
stored under the "NSScreenNumber" key of its `deviceDescription`.
`screenNumber = none` models a description with no such key;
`some none` models a value that is not an `NSNumber` (so that
`downcast::<NSNumber>().unwrap()` panics); `some (some n)` models the
`NSNumber` `n`. -/
structure NSScreenModel where
  localizedName : String
  screenNumber : Option (Option Nat)
deriving DecidableEq

/-- Opaque pixel-capture result (`image::RgbaImage`); the adapter never
inspects it, so a token suffices. -/
structure RgbaImage where
  token : Nat
deriving DecidableEq

/-- Modelled from the spec: the crate's error type (`src/error.rs` is not
part of this file's sources). Per the spec, errors are native-framework
error codes passed through with minimal translation: `XCapError::new(msg)`
builds the message variant `Error`, and a CoreGraphics `CGError` code is
carried by `CoreGraphicsDisplayCGError` (the variant the source names at
line 111; the `?` on `CGDisplay::active_displays()` performs the same
translation). -/
inductive XCapError where
  | Error : String → XCapError
  | CoreGraphicsDisplayCGError : Nat → XCapError
deriving DecidableEq

/-- The environment of native calls the adapter makes, one field per OS
query.  `activeDisplays` is `CGDisplay::active_displays()`;
`bounds`, `modelNumber`, `displayMode`, `rotation`, `isMain`, `isActive`
are the corresponding `CGDisplay` methods keyed by display id;
`mainThread` is whether `MainThreadMarker::new()` returns `Some`;
`screens` is `NSScreen::screens`; `displaysAtPoint` gives, per point, the
`CGError` code of `CGGetDisplaysWithPoint` together with the full list of
display ids the OS would report (the call itself truncates to the caller's
`max_displays`); `captureFn` is the lower-level routine
`super::capture::capture(rect, options, window_id)`. -/
structure OSEnv where
  activeDisplays : Except Nat (List Nat)
  bounds : Nat → CGRect
  modelNumber : Nat → Nat
  displayMode : Nat → Option CGDisplayMode
  rotation : Nat → ℚ
  isMain : Nat → Bool
  isActive : Nat → Bool
  mainThread : Bool
  screens : List NSScreenModel
  displaysAtPoint : CGPoint → Nat × List Nat
  captureFn : CGRect → Nat → Nat → Except XCapError RgbaImage

/-- The `ImplMonitor` record, field for field as in the Rust struct
(lines 16-29 of the source). -/
structure ImplMonitor where
  cg_display : CGDisplay
  id : Nat
  name : String
  x : Int
  y : Int
  width : Nat
  height : Nat
  rotation : ℚ
  scale_factor : ℚ
  frequency : ℚ
  is_primary : Bool
deriving DecidableEq

/-- Model of `HashMap::insert`: replace the binding if the key is present, append
otherwise (the adapter only ever reads the map through `get`, so an
association list is an exact model). -/
def mapInsert : List (Nat × String) → Nat → String → List (Nat × String)
  | [], k, v => [(k, v)]
  | (k0, v0) :: rest, k, v =>
      if k0 = k then (k, v) :: rest else (k0, v0) :: mapInsert rest k v

/-- Model of `HashMap::get` on the association-list model. -/
def mapGet : List (Nat × String) → Nat → Option String
  | [], _ => none
  | (k0, v0) :: rest, k => if k0 = k then some v0 else mapGet rest k

/-- The loop body of `screen_map` (lines 135-146): for each screen, look up
"NSScreenNumber" in its device description; if present, downcast to
`NSNumber` (panicking, i.e. `none`, if the value is not a number) and
insert `(display_id, localizedName)` into the map. -/
def buildScreenMap : List NSScreenModel → List (Nat × String) → Option (List (Nat × String))
  | [], acc => some acc
  | s :: rest, acc =>
      match s.screenNumber with
      | none => buildScreenMap rest acc
      | some none => none
      | some (some n) => buildScreenMap rest (mapInsert acc n s.localizedName)

/-- Model of `ImplMonitor::screen_map` (lines 131-148): unwraps the main-thread
marker (panicking off the main thread), walks `NSScreen::screens`, and
returns the name map.  The Rust signature is `Result<HashMap, Error>` but
the body only ever returns `Ok`. -/
def screenMap (env : OSEnv) : Option (Except String (List (Nat × String))) :=
  if env.mainThread then
    match buildScreenMap env.screens [] with
    | none => none
    | some m => some (Except.ok m)
  else
    none

/-- Model of `get_cg_display_mode` (lines 152-158): `display_mode()` with `None`
turned into the message error "Get display mode failed". -/
def getCgDisplayMode (env : OSEnv) (cg_display : CGDisplay) : Except XCapError CGDisplayMode :=
  match env.displayMode cg_display.id with
  | none => Except.error (XCapError.Error "Get display mode failed")
  | some m => Except.ok m

/-- Model of `ImplMonitor::new` (lines 42-71), in the source's call order: model
number, bounds, display mode (an error here returns before the name
lookup), scale factor as pixel width over bounds width, then the screen
name map (`unwrap_or` replaces a map error by the empty map, but a panic
inside `screen_map` propagates), and finally the record. -/
def ImplMonitor.new (env : OSEnv) (id : Nat) : Option (Except XCapError ImplMonitor) :=
  let cg_display : CGDisplay := ⟨id⟩
  let screen_num := env.modelNumber cg_display.id
  let cg_rect := env.bounds cg_display.id
  match getCgDisplayMode env cg_display with
  | Except.error e => some (Except.error e)
  | Except.ok cg_display_mode =>
    let pixel_width := cg_display_mode.pixelWidth
    let scale_factor : ℚ := (pixel_width : ℚ) / (cg_rect.width : ℚ)
    match screenMap env with
    | none => none
    | some screen_map_result =>
      let screen_name_map :=
        match screen_map_result with
        | Except.ok m => m
        | Except.error _ => []
      let screen_id := cg_display.id
      let default_name := "Monitor #" ++ toString screen_num
      some (Except.ok
        { cg_display := cg_display
          id := cg_display.id
          name := (mapGet screen_name_map screen_id).getD default_name
          x := cg_rect.originX
          y := cg_rect.originY
          width := cg_rect.width
          height := cg_rect.height
          rotation := env.rotation cg_display.id
          scale_factor := scale_factor
          frequency := cg_display_mode.refreshRate
          is_primary := env.isMain cg_display.id })

/-- The loop of `ImplMonitor::all` (lines 78-87): construct each monitor,
keep the successes, skip (and log) the failures; a panic propagates. -/
def allLoop (env : OSEnv) : List Nat → Option (List ImplMonitor)
  | [] => some []
  | d :: rest =>
      match ImplMonitor.new env d with
      | none => none
      | some (Except.ok m) => (allLoop env rest).map (fun ms => m :: ms)
      | some (Except.error _) => allLoop env rest

/-- Model of `ImplMonitor::all` (lines 72-90): `CGDisplay::active_displays()` with
its `CGError` translated by `?`, then the per-display loop. -/
def ImplMonitor.all (env : OSEnv) : Option (Except XCapError (List ImplMonitor)) :=
  match env.activeDisplays with
  | Except.error code => some (Except.error (XCapError.CoreGraphicsDisplayCGError code))
  | Except.ok display_ids =>
      match allLoop env display_ids with
      | none => none
      | some ms => some (Except.ok ms)

/-- Model of `ImplMonitor::from_point` (lines 92-129).  The buffer holds
`max_displays = 16` zero-initialised slots; the OS overwrites the first
`display_count = min 16 (number of reported displays)` of them.  A nonzero
`CGError` and a zero count are turned into errors; otherwise the first
buffer entry is the first reported id, the monitor is constructed, and an
inactive display is rejected. -/
def fromPoint (env : OSEnv) (x y : Int) : Option (Except XCapError ImplMonitor) :=
  let point : CGPoint := ⟨x, y⟩
  let max_displays : Nat := 16
  let osAnswer := env.displaysAtPoint point
  let cg_error := osAnswer.1
  let written := osAnswer.2.take max_displays
  let display_ids := written ++ List.replicate (max_displays - written.length) 0
  let display_count := min osAnswer.2.length max_displays
  if cg_error ≠ 0 then
    some (Except.error (XCapError.CoreGraphicsDisplayCGError cg_error))
  else if display_count = 0 then
    some (Except.error (XCapError.Error "Get displays from point failed"))
  else
    match display_ids.head? with
    | none => some (Except.error (XCapError.Error "Monitor not found"))
    | some display_id =>
        match ImplMonitor.new env display_id with
        | none => none
        | some (Except.error e) => some (Except.error e)
        | some (Except.ok impl_monitor) =>
            if !(env.isActive impl_monitor.cg_display.id) then
              some (Except.error (XCapError.Error "Monitor is not active"))
            else
              some (Except.ok impl_monitor)

/-- Modelled from the spec: the lower-level capture routine
`super::capture::capture(rect, options, window_id)` (its file is not among
the sources); per the spec it is the routine pixel capture is delegated
to, so we model it as the environment's capture query itself. -/
def capture (env : OSEnv) (rect : CGRect) (options : Nat) (windowId : Nat) :
    Except XCapError RgbaImage :=
  env.captureFn rect options windowId

/-- Constant `kCGWindowListOptionAll` (value 0 in CoreGraphics). -/
def kCGWindowListOptionAll : Nat := 0

/-- Constant `kCGNullWindowID` (value 0 in CoreGraphics). -/
def kCGNullWindowID : Nat := 0

/-- Model of `ImplMonitor::capture_image` (lines 161-167): capture at the display's
bounds with the all-windows option and the null window id. -/
def captureImage (env : OSEnv) (m : ImplMonitor) : Except XCapError RgbaImage :=
  capture env (env.bounds m.cg_display.id) kCGWindowListOptionAll kCGNullWindowID

deriving instance DecidableEq for Except

/-! ### Concrete environments for witnesses and counterexamples -/

/-- A well-behaved environment: main thread, one active display family,
every display 1920x1080 with a 3840-pixel-wide mode at 60 Hz. -/
def baseEnv : OSEnv where
  activeDisplays := Except.ok []
  bounds := fun _ => ⟨0, 0, 1920, 1080⟩
  modelNumber := fun d => d + 100
  displayMode := fun _ => some ⟨3840, 60⟩
  rotation := fun _ => 0
  isMain := fun d => d == 1
  isActive := fun _ => true
  mainThread := true
  screens := []
  displaysAtPoint := fun _ => (0, [])
  captureFn := fun _ _ _ => Except.ok ⟨7⟩

/-- The monitor `ImplMonitor::new(baseEnv, 1)` builds. -/
def monW : ImplMonitor where
  cg_display := ⟨1⟩
  id := 1
  name := "Monitor #101"
  x := 0
  y := 0
  width := 1920
  height := 1080
  rotation := 0
  scale_factor := ((3840 : Nat) : ℚ) / ((1920 : Nat) : ℚ)
  frequency := 60
  is_primary := true

/-! ### Characterizations of the operations -/

/-- Unfolding of `ImplMonitor.new`: the display-mode error short-circuits, a
`screen_map` panic propagates, and otherwise the record is built from the
environment's answers for display `d`. -/
theorem new_char (env : OSEnv) (d : Nat) :
    ImplMonitor.new env d =
      match env.displayMode d with
      | none => some (Except.error (XCapError.Error "Get display mode failed"))
      | some mode =>
          match screenMap env with
          | none => none
          | some r =>
              some (Except.ok
                { cg_display := ⟨d⟩
                  id := d
                  name := (mapGet (match r with
                            | Except.ok m => m
                            | Except.error _ => []) d).getD
                          ("Monitor #" ++ toString (env.modelNumber d))
                  x := (env.bounds d).originX
                  y := (env.bounds d).originY
                  width := (env.bounds d).width
                  height := (env.bounds d).height
                  rotation := env.rotation d
                  scale_factor := ((mode.pixelWidth : ℚ)) / (((env.bounds d).width : ℚ))
                  frequency := mode.refreshRate
                  is_primary := env.isMain d }) := by
  rcases h : env.displayMode d with _ | mode <;> rcases hs : screenMap env with _ | r <;>
    simp [ImplMonitor.new, getCgDisplayMode, h, hs]

/-- The monitor `new` succeeds with, if any (the `Ok` branch of the loop in
`all`). -/
def newOkOf (env : OSEnv) (d : Nat) : Option ImplMonitor :=
  match ImplMonitor.new env d with
  | some (Except.ok m) => some m
  | _ => none

theorem newOkOf_eq_some (env : OSEnv) (d : Nat) (m : ImplMonitor) :
    newOkOf env d = some m ↔ ImplMonitor.new env d = some (Except.ok m) := by
  unfold newOkOf
  rcases h : ImplMonitor.new env d with _ | r
  · simp
  · rcases r with e | m0 <;> simp

/-- A successfully constructed monitor carries the id it was built from,
both in its `id` field and in its `cg_display` handle. -/
theorem new_ok_ids (env : OSEnv) (d : Nat) (m : ImplMonitor)
    (h : ImplMonitor.new env d = some (Except.ok m)) :
    m.id = d ∧ m.cg_display = ⟨d⟩ := by
  rw [new_char] at h
  rcases hm : env.displayMode d with _ | mode <;> rw [hm] at h
  · simp at h
  · rcases hs : screenMap env with _ | r <;> rw [hs] at h
    · simp at h
    · simp at h
      constructor
      · rw [← h]
      · rw [← h]

/-- Lemma: `screen_map` never returns an `Err`: its Rust body only ever builds
`Ok`. -/
theorem screenMap_not_error (env : OSEnv) (e : String) :
    screenMap env ≠ some (Except.error e) := by
  unfold screenMap
  cases hmt : env.mainThread <;> simp
  rcases hb : buildScreenMap env.screens [] with _ | m <;> simp [hb]

/-- If `new` returns at all (no panic) past the display-mode check, then
`screen_map` returned a map. -/
theorem new_no_panic_screenMap (env : OSEnv) (d : Nat) (r : Except XCapError ImplMonitor)
    (h : ImplMonitor.new env d = some r) (hm : (env.displayMode d).isSome) :
    ∃ tbl, screenMap env = some (Except.ok tbl) := by
  rw [new_char] at h
  rcases hmode : env.displayMode d with _ | mode
  · rw [hmode] at hm; simp at hm
  · rw [hmode] at h
    rcases hs : screenMap env with _ | tr
    · rw [hs] at h; simp at h
    · rcases tr with e | tbl
      · exact absurd hs (screenMap_not_error env e)
      · exact ⟨tbl, rfl⟩

/-- The fields of a successfully constructed monitor, given the screen-name
table `screen_map` returned. -/
theorem new_ok_fields (env : OSEnv) (d : Nat) (m : ImplMonitor) (tbl : List (Nat × String))
    (h : ImplMonitor.new env d = some (Except.ok m))
    (hs : screenMap env = some (Except.ok tbl)) :
    m = { cg_display := ⟨d⟩
          id := d
          name := (mapGet tbl d).getD ("Monitor #" ++ toString (env.modelNumber d))
          x := (env.bounds d).originX
          y := (env.bounds d).originY
          width := (env.bounds d).width
          height := (env.bounds d).height
          rotation := env.rotation d
          scale_factor := ((env.displayMode d).getD ⟨0, 0⟩ |>.pixelWidth : ℚ) / (((env.bounds d).width : ℚ))
          frequency := ((env.displayMode d).getD ⟨0, 0⟩).refreshRate
          is_primary := env.isMain d } := by
  rw [new_char] at h
  rcases hmode : env.displayMode d with _ | mode <;> rw [hmode] at h
  · simp at h
  · rw [hs] at h
    simp at h
    simp [← h, hmode]

/-- Lemma: `allLoop` never drops, reorders or invents successes: when it returns a
list, that list is exactly the successful constructions, in input order. -/
theorem allLoop_some_eq (env : OSEnv) (ids : List Nat) (ms : List ImplMonitor)
    (h : allLoop env ids = some ms) : ms = ids.filterMap (newOkOf env) := by
  induction ids generalizing ms with
  | nil =>
      simp [allLoop] at h
      simp [← h]
  | cons d rest ih =>
      simp only [allLoop] at h
      rcases hn : ImplMonitor.new env d with _ | r
      · rw [hn] at h; simp at h
      · rw [hn] at h
        rcases r with e | m
        · have hrec := ih ms h
          simp [List.filterMap_cons, newOkOf, hn, hrec]
        · rcases hr : allLoop env rest with _ | ms0
          · rw [hr] at h; simp at h
          · rw [hr] at h
            simp at h
            have hrec := ih ms0 hr
            simp [List.filterMap_cons, newOkOf, hn, ← h, hrec]

/-- Lemma: `allLoop` panics exactly when one of the constructions it reaches
panics. -/
theorem allLoop_none_iff (env : OSEnv) (ids : List Nat) :
    allLoop env ids = none ↔ ∃ d ∈ ids, ImplMonitor.new env d = none := by
  induction ids with
  | nil => simp [allLoop]
  | cons d rest ih =>
      simp only [allLoop]
      rcases hn : ImplMonitor.new env d with _ | r
      · exact iff_of_true rfl ⟨d, List.mem_cons_self d rest, hn⟩
      · rcases r with e | m
        · rw [ih]
          constructor
          · rintro ⟨a, ha, hna⟩
            exact ⟨a, List.mem_cons_of_mem d ha, hna⟩
          · rintro ⟨a, ha, hna⟩
            rcases List.mem_cons.mp ha with rfl | ha0
            · rw [hn] at hna; exact absurd hna (by simp)
            · exact ⟨a, ha0, hna⟩
        · rw [Option.map_eq_none', ih]
          constructor
          · rintro ⟨a, ha, hna⟩
            exact ⟨a, List.mem_cons_of_mem d ha, hna⟩
          · rintro ⟨a, ha, hna⟩
            rcases List.mem_cons.mp ha with rfl | ha0
            · rw [hn] at hna; exact absurd hna (by simp)
            · exact ⟨a, ha0, hna⟩

/-- Unfolding of `fromPoint` over the OS answer for the queried point: the
16-slot zero-initialised buffer and the written count collapse to a case
split on the error code and on the reported list being empty, with the
first reported id feeding `new`. -/
theorem fromPoint_char (env : OSEnv) (x y : Int) (code : Nat) (ids : List Nat)
    (hp : env.displaysAtPoint ⟨x, y⟩ = (code, ids)) :
    fromPoint env x y =
      if code ≠ 0 then some (Except.error (XCapError.CoreGraphicsDisplayCGError code))
      else if ids = [] then some (Except.error (XCapError.Error "Get displays from point failed"))
      else
        match ImplMonitor.new env (ids.headD 0) with
        | none => none
        | some (Except.error e) => some (Except.error e)
        | some (Except.ok impl_monitor) =>
            if !(env.isActive impl_monitor.cg_display.id) then
              some (Except.error (XCapError.Error "Monitor is not active"))
            else some (Except.ok impl_monitor) := by
  unfold fromPoint
  simp only [hp]
  by_cases hc : code = 0
  · subst hc
    simp only [ne_eq, not_true_eq_false, if_false, ite_false]
    cases ids with
    | nil => simp
    | cons a t =>
        have hcount : min (a :: t).length 16 ≠ 0 := by
          have hlen : (a :: t).length = t.length + 1 := rfl
          omega
        simp [hcount, List.take_cons]
  · simp [hc]

/-- Whether an error value carries a native CoreGraphics error code. -/
def isNativeCGError : XCapError → Bool
  | XCapError.CoreGraphicsDisplayCGError _ => true
  | XCapError.Error _ => false

/-- The flat record the specification describes: monitor id, name,
position, size, rotation, scale, refresh rate, primary flag. -/
structure MonitorRecord where
  id : Nat
  name : String
  x : Int
  y : Int
  width : Nat
  height : Nat
  rotation : ℚ
  scale_factor : ℚ
  frequency : ℚ
  is_primary : Bool
deriving DecidableEq

/-- Projection of an `ImplMonitor` onto the spec-described fields. -/
def toRecord (m : ImplMonitor) : MonitorRecord where
  id := m.id
  name := m.name
  x := m.x
  y := m.y
  width := m.width
  height := m.height
  rotation := m.rotation
  scale_factor := m.scale_factor
  frequency := m.frequency
  is_primary := m.is_primary

/-- Two monitors whose native handle carries their own id and that agree on
the spec-described fields are equal. -/
theorem toRecord_inj_on_handles (m m2 : ImplMonitor)
    (h1 : m.cg_display = CGDisplay.mk m.id) (h2 : m2.cg_display = CGDisplay.mk m2.id)
    (hrec : toRecord m = toRecord m2) : m = m2 := by
  cases m
  cases m2
  simp [toRecord] at hrec h1 h2 ⊢
  simp_all

/-- Like `envSkip` below but first a helper: `all` on a successful loop is
the filtered constructions (shared by several results). -/
theorem all_ok_eq (env : OSEnv) (ids : List Nat) (ms : List ImplMonitor)
    (ha : env.activeDisplays = Except.ok ids)
    (hr : ImplMonitor.all env = some (Except.ok ms)) :
    ms = ids.filterMap (newOkOf env) := by
  unfold ImplMonitor.all at hr
  rw [ha] at hr
  dsimp only at hr
  rcases hl : allLoop env ids with _ | ms0 <;> rw [hl] at hr
  · simp at hr
  · simp at hr
    rw [← hr]
    exact allLoop_some_eq env ids ms0 hl

/-- The ids of the successful constructions, in order. -/
theorem filterMap_newOkOf_ids (env : OSEnv) (ids : List Nat) :
    (ids.filterMap (newOkOf env)).map ImplMonitor.id =
      ids.filter (fun d => (newOkOf env d).isSome) := by
  induction ids with
  | nil => rfl
  | cons d rest ih =>
      rcases hn : newOkOf env d with _ | m
      · simp [List.filterMap_cons, List.filter_cons, hn, ih]
      · have hid : m.id = d :=
          (new_ok_ids env d m ((newOkOf_eq_some env d m).mp hn)).1
        simp [List.filterMap_cons, List.filter_cons, hn, ih, hid]

/-- Environment where display 1 has no display mode (its construction
fails, as after an unplug, issue 118) while display 2 is healthy. -/
def envSkip : OSEnv :=
  { baseEnv with
      activeDisplays := Except.ok [1, 2]
      displayMode := fun d => if d = 1 then none else some ⟨3840, 60⟩ }

/-- The monitor `ImplMonitor::new(envSkip, 2)` builds. -/
def mon2 : ImplMonitor where
  cg_display := ⟨2⟩
  id := 2
  name := "Monitor #102"
  x := 0
  y := 0
  width := 1920
  height := 1080
  rotation := 0
  scale_factor := ((3840 : Nat) : ℚ) / ((1920 : Nat) : ℚ)
  frequency := 60
  is_primary := false

/-- Environment `baseEnv` off the main thread. -/
def envOff : OSEnv := { baseEnv with mainThread := false }

/-- Off the main thread and with no display mode anywhere. -/
def envOffNoMode : OSEnv :=
  { baseEnv with mainThread := false, displayMode := fun _ => none }

/-- Environment whose active-display query fails with code 1001. -/
def envErr : OSEnv := { baseEnv with activeDisplays := Except.error 1001 }

/-- Environment with no display mode anywhere (on the main thread). -/
def envNoMode : OSEnv := { baseEnv with displayMode := fun _ => none }

/-- Monitor `monW` with a foreign native handle. -/
def monA : ImplMonitor := { monW with cg_display := ⟨5⟩ }

/-! ### Claim theorems -/

/-- C1 counterexample: with displays 1 and 2 active but display 1 failing
construction (no display mode), `all` returns a single record, not one per
reported display id: the result's ids are `[2]`, not `[1, 2]`. -/
theorem c1_counterexample :
    envSkip.activeDisplays = Except.ok [1, 2] ∧
    ImplMonitor.all envSkip = some (Except.ok [mon2]) ∧
    List.map ImplMonitor.id [mon2] ≠ [1, 2] :=
  ⟨rfl, rfl, by decide⟩

/-- C1 (amended): `ImplMonitor::all` returns exactly one record per active
display id for which construction succeeds, in the OS's order; display ids
whose construction fails are skipped. -/
theorem c1_all_one_record_per_constructible_display (env : OSEnv) (ids : List Nat)
    (ms : List ImplMonitor)
    (ha : env.activeDisplays = Except.ok ids)
    (hr : ImplMonitor.all env = some (Except.ok ms)) :
    ms = ids.filterMap (newOkOf env) ∧
    ms.map ImplMonitor.id = ids.filter (fun d => (newOkOf env d).isSome) := by
  have hms := all_ok_eq env ids ms ha hr
  exact ⟨hms, by rw [hms]; exact filterMap_newOkOf_ids env ids⟩

/-- C1 witness: the amended statement evaluated on `envSkip`. -/
theorem c1_witness :
    [mon2] = List.filterMap (newOkOf envSkip) [1, 2] ∧
    List.map ImplMonitor.id [mon2] =
      List.filter (fun d => (newOkOf envSkip d).isSome) [1, 2] :=
  c1_all_one_record_per_constructible_display envSkip [1, 2] [mon2] rfl rfl

/-- C2 counterexample: `from_point` with a successful native query that
reports no display returns the adapter-constructed message error
"Get displays from point failed", which carries no native error code. -/
theorem c2_counterexample :
    fromPoint baseEnv 0 0 =
      some (Except.error (XCapError.Error "Get displays from point failed")) ∧
    isNativeCGError (XCapError.Error "Get displays from point failed") = false :=
  ⟨rfl, rfl⟩

/-- C2 (amended): every error a public operation returns is either a
native CoreGraphics error code carried through, or one of a fixed set of
adapter-constructed message errors (missing display mode, no display at
the point, inactive monitor). -/
theorem c2_errors_native_or_adapter_messages :
    (∀ env e, ImplMonitor.all env = some (Except.error e) → isNativeCGError e = true) ∧
    (∀ env d e, ImplMonitor.new env d = some (Except.error e) →
        e = XCapError.Error "Get display mode failed") ∧
    (∀ env x y e, fromPoint env x y = some (Except.error e) →
        isNativeCGError e = true ∨
        e = XCapError.Error "Get displays from point failed" ∨
        e = XCapError.Error "Get display mode failed" ∨
        e = XCapError.Error "Monitor is not active") := by
  have hnew : ∀ env d e, ImplMonitor.new env d = some (Except.error e) →
      e = XCapError.Error "Get display mode failed" := by
    intro env d e h
    rw [new_char] at h
    rcases hmode : env.displayMode d with _ | mode <;> rw [hmode] at h
    · simp at h
      exact h.symm
    · rcases hs : screenMap env with _ | tr <;> rw [hs] at h
      · simp at h
      · simp at h
  refine ⟨?_, hnew, ?_⟩
  · intro env e h
    unfold ImplMonitor.all at h
    rcases ha : env.activeDisplays with code | ids <;> rw [ha] at h <;> dsimp only at h
    · simp at h
      rw [← h]
      rfl
    · rcases hl : allLoop env ids with _ | ms <;> rw [hl] at h <;> simp at h
  · intro env x y e h
    rcases hp : env.displaysAtPoint ⟨x, y⟩ with ⟨code, ids⟩
    rw [fromPoint_char env x y code ids hp] at h
    by_cases hc : code = 0
    · subst hc
      simp only [ne_eq, not_true_eq_false, if_false, ite_false] at h
      cases ids with
      | nil =>
          simp at h
          right; left; exact h.symm
      | cons d t =>
          simp only [List.headD] at h
          rcases hn : ImplMonitor.new env d with _ | r
          · rw [hn] at h
            simp at h
          · rw [hn] at h
            rcases r with e0 | m
            · simp at h
              right; right; left
              rw [← h]
              exact hnew env d e0 hn
            · by_cases hact : env.isActive m.cg_display.id = true
              · simp [hact] at h
              · simp [Bool.not_eq_true] at hact
                simp [hact] at h
                right; right; right; exact h.symm
    · simp [hc] at h
      rw [← h]
      left
      rfl

/-- C2 witness: the amended statement evaluated for `new` on an
environment with no display mode. -/
theorem c2_witness :
    XCapError.Error "Get display mode failed" = XCapError.Error "Get display mode failed" :=
  c2_errors_native_or_adapter_messages.2.1 envNoMode 1
    (XCapError.Error "Get display mode failed") rfl

/-- C3: for every display id whose construction succeeds, the record's
geometry comes from the display's bounds, its scale factor is the display
mode's pixel width divided by the bounds width, its refresh rate comes
from the display mode, and its name comes from the OS screen-name table,
falling back to "Monitor #{model_number}" when the table has no entry for
that display id. -/
theorem c3_new_resolves_monitor_data (env : OSEnv) (d : Nat) (m : ImplMonitor)
    (h : ImplMonitor.new env d = some (Except.ok m)) :
    m.x = (env.bounds d).originX ∧ m.y = (env.bounds d).originY ∧
    m.width = (env.bounds d).width ∧ m.height = (env.bounds d).height ∧
    (∃ mode, env.displayMode d = some mode ∧
        m.scale_factor = (mode.pixelWidth : ℚ) / ((env.bounds d).width : ℚ) ∧
        m.frequency = mode.refreshRate) ∧
    (∃ tbl, screenMap env = some (Except.ok tbl) ∧
        m.name = (mapGet tbl d).getD ("Monitor #" ++ toString (env.modelNumber d)) ∧
        (mapGet tbl d = none →
            m.name = "Monitor #" ++ toString (env.modelNumber d))) := by
  rw [new_char] at h
  rcases hmode : env.displayMode d with _ | mode <;> rw [hmode] at h
  · simp at h
  · rcases hs : screenMap env with _ | tr <;> rw [hs] at h
    · simp at h
    · rcases tr with e | tbl
      · exact absurd hs (screenMap_not_error env e)
      · simp at h
        refine ⟨by rw [← h], by rw [← h], by rw [← h], by rw [← h],
          ⟨mode, rfl, by rw [← h], by rw [← h]⟩,
          ⟨tbl, rfl, by rw [← h], ?_⟩⟩
        intro hnone
        rw [← h]
        simp [hnone]

/-- C3 witness: the statement evaluated on `baseEnv` and display 1, whose
name falls back to "Monitor #101" (model number 101, empty table). -/
theorem c3_witness :
    monW.x = (baseEnv.bounds 1).originX ∧ monW.y = (baseEnv.bounds 1).originY ∧
    monW.width = (baseEnv.bounds 1).width ∧ monW.height = (baseEnv.bounds 1).height ∧
    (∃ mode, baseEnv.displayMode 1 = some mode ∧
        monW.scale_factor = (mode.pixelWidth : ℚ) / ((baseEnv.bounds 1).width : ℚ) ∧
        monW.frequency = mode.refreshRate) ∧
    (∃ tbl, screenMap baseEnv = some (Except.ok tbl) ∧
        monW.name = (mapGet tbl 1).getD ("Monitor #" ++ toString (baseEnv.modelNumber 1)) ∧
        (mapGet tbl 1 = none →
            monW.name = "Monitor #" ++ toString (baseEnv.modelNumber 1))) :=
  c3_new_resolves_monitor_data baseEnv 1 monW rfl

/-- C4: `capture_image` delegates pixel capture to the lower-level capture
routine at the monitor's display bounds, with the all-windows list option
and the null window id, and does nothing else to the result. -/
theorem c4_capture_image_delegates (env : OSEnv) (m : ImplMonitor) :
    captureImage env m =
      capture env (env.bounds m.cg_display.id) kCGWindowListOptionAll kCGNullWindowID :=
  rfl

/-- C5 counterexample: inside `all`, the native display-mode call for
display 1 fails, yet `all` does not propagate that failure: it returns Ok
with the partial result `[mon2]`. -/
theorem c5_counterexample :
    ImplMonitor.new envSkip 1 =
      some (Except.error (XCapError.Error "Get display mode failed")) ∧
    ImplMonitor.all envSkip = some (Except.ok [mon2]) :=
  ⟨rfl, rfl⟩

/-- C5 (amended): `all` propagates a failure of the active-display query
and `from_point` propagates every failure (query error and construction
error alike), but `all` recovers from a failed per-monitor construction by
skipping that monitor and continuing with the rest. -/
theorem c5_propagation_and_recovery :
    (∀ env code, env.activeDisplays = Except.error code →
        ImplMonitor.all env =
          some (Except.error (XCapError.CoreGraphicsDisplayCGError code))) ∧
    (∀ env x y code ids, env.displaysAtPoint ⟨x, y⟩ = (code, ids) → code ≠ 0 →
        fromPoint env x y =
          some (Except.error (XCapError.CoreGraphicsDisplayCGError code))) ∧
    (∀ env x y d rest e, env.displaysAtPoint ⟨x, y⟩ = (0, d :: rest) →
        ImplMonitor.new env d = some (Except.error e) →
        fromPoint env x y = some (Except.error e)) ∧
    (∀ env ids ms, env.activeDisplays = Except.ok ids →
        ImplMonitor.all env = some (Except.ok ms) →
        ms = ids.filterMap (newOkOf env)) := by
  refine ⟨?_, ?_, ?_, fun env ids ms ha hr => all_ok_eq env ids ms ha hr⟩
  · intro env code ha
    unfold ImplMonitor.all
    rw [ha]
  · intro env x y code ids hp hc
    rw [fromPoint_char env x y code ids hp]
    simp [hc]
  · intro env x y d rest e hp hn
    rw [fromPoint_char env x y 0 (d :: rest) hp]
    simp only [ne_eq, not_true_eq_false, if_false, ite_false, List.headD]
    rw [hn]
    simp

/-- C5 witness: the propagation part evaluated on an environment whose
active-display query fails with code 1001. -/
theorem c5_witness :
    ImplMonitor.all envErr =
      some (Except.error (XCapError.CoreGraphicsDisplayCGError 1001)) :=
  c5_propagation_and_recovery.1 envErr 1001 rfl

/-- C6 counterexample: the struct is not exactly the claimed flat record:
it also stores the native handle `cg_display`, so two distinct monitor
values can agree on every claimed field. -/
theorem c6_counterexample :
    toRecord monW = toRecord monA ∧ monW ≠ monA :=
  ⟨rfl, by decide⟩

/-- C6 (amended): the monitor struct holds the claimed fields plus the
native display handle `cg_display`; every record `new` constructs carries
its own id in that handle, so adapter-constructed records are fully
determined by the claimed flat record. -/
theorem c6_record_shape (env : OSEnv) (d : Nat) (m : ImplMonitor)
    (h : ImplMonitor.new env d = some (Except.ok m)) :
    m.cg_display = CGDisplay.mk m.id ∧
    (∀ m2, m2.cg_display = CGDisplay.mk m2.id → toRecord m = toRecord m2 → m = m2) := by
  have hid := new_ok_ids env d m h
  have hcg : m.cg_display = CGDisplay.mk m.id := by rw [hid.2, hid.1]
  exact ⟨hcg, fun m2 h2 hrec => toRecord_inj_on_handles m m2 hcg h2 hrec⟩

/-- C6 witness: evaluated on the monitor built from `baseEnv` and
display 1. -/
theorem c6_witness : monW.cg_display = CGDisplay.mk monW.id :=
  (c6_record_shape baseEnv 1 monW rfl).1

/-- C8: `from_point` returns Ok exactly when the native point query
succeeds, at least one display is reported, and the monitor constructed
from the first reported display id exists and is active. -/
theorem c8_from_point_ok_iff (env : OSEnv) (x y : Int) :
    (∃ m, fromPoint env x y = some (Except.ok m)) ↔
      ((env.displaysAtPoint ⟨x, y⟩).1 = 0 ∧ (env.displaysAtPoint ⟨x, y⟩).2 ≠ [] ∧
        ∃ m, ImplMonitor.new env ((env.displaysAtPoint ⟨x, y⟩).2.headD 0) =
              some (Except.ok m) ∧
          env.isActive m.cg_display.id = true) := by
  rcases hp : env.displaysAtPoint ⟨x, y⟩ with ⟨code, ids⟩
  rw [fromPoint_char env x y code ids hp]
  simp only
  by_cases hc : code = 0
  · subst hc
    simp only [ne_eq, not_true_eq_false, if_false, ite_false, eq_self_iff_true, true_and]
    cases ids with
    | nil => simp
    | cons d t =>
        simp only [List.headD]
        rcases hn : ImplMonitor.new env d with _ | r
        · simp [hn]
        · rcases r with e | m
          · simp [hn]
          · by_cases hact : env.isActive m.cg_display.id = true
            · simp only [hn, hact, Bool.not_true, if_false, ite_false]
              constructor
              · intro _
                exact ⟨by simp, ⟨m, rfl, hact⟩⟩
              · intro _
                exact ⟨m, by simp⟩
            · simp only [Bool.not_eq_true] at hact
              simp only [hn, hact, Bool.not_false, if_true, ite_true]
              constructor
              · rintro ⟨m0, hm0⟩
                simp at hm0
              · rintro ⟨-, m0, hm0, hact0⟩
                rcases hm0 with ⟨rfl⟩
                rw [hact] at hact0
                exact absurd hact0 (by simp)
  · simp [hc]

/-- C9 counterexample: off the main thread, `all` with an empty
active-display list completes without panicking (it returns Ok []), and
`new` whose display-mode query fails completes with an error rather than
panicking; so neither "completes without panicking only on the main
thread". -/
theorem c9_counterexample :
    envOff.mainThread = false ∧
    ImplMonitor.all envOff = some (Except.ok []) ∧
    envOffNoMode.mainThread = false ∧
    ImplMonitor.new envOffNoMode 1 =
      some (Except.error (XCapError.Error "Get display mode failed")) :=
  ⟨rfl, rfl, rfl, rfl⟩

/-- C9 (amended): off the main thread `screen_map` always panics (the
main-thread marker is unwrapped from None) rather than returning an
error; `new` then panics exactly when its display-mode query succeeds
(otherwise it returns the display-mode error before reaching the name
lookup); and `all` panics exactly when some active display's display-mode
query succeeds. -/
theorem c9_off_main_thread_panics (env : OSEnv) (h : env.mainThread = false) :
    screenMap env = none ∧
    (∀ d, ImplMonitor.new env d = none ↔ (env.displayMode d).isSome = true) ∧
    (ImplMonitor.all env = none ↔
      ∃ ids, env.activeDisplays = Except.ok ids ∧
        ∃ d ∈ ids, (env.displayMode d).isSome = true) := by
  have hsm : screenMap env = none := by
    unfold screenMap
    rw [h]
    simp
  have hnew : ∀ d, ImplMonitor.new env d = none ↔ (env.displayMode d).isSome = true := by
    intro d
    rw [new_char]
    rcases hmode : env.displayMode d with _ | mode
    · simp
    · rw [hsm]
      simp
  refine ⟨hsm, hnew, ?_⟩
  unfold ImplMonitor.all
  rcases ha : env.activeDisplays with code | ids <;> dsimp only
  · simp
  · rcases hl : allLoop env ids with _ | ms
    · refine iff_of_true rfl ⟨ids, rfl, ?_⟩
      rcases (allLoop_none_iff env ids).mp hl with ⟨d, hd, hdn⟩
      exact ⟨d, hd, (hnew d).mp hdn⟩
    · refine iff_of_false (by simp) ?_
      rintro ⟨ids1, hids1, d, hd, hds⟩
      injection hids1 with hids1
      subst hids1
      have hcontra : allLoop env ids = none :=
        (allLoop_none_iff env ids).mpr ⟨d, hd, (hnew d).mpr hds⟩
      rw [hl] at hcontra
      simp at hcontra

/-- C9 witness: off the main thread, `screen_map` panics on `envOff`. -/
theorem c9_witness : screenMap envOff = none :=
  (c9_off_main_thread_panics envOff rfl).1

/-- C10: a successfully constructed record's id equals the display id it
was built from; every record `all` returns is the construction for its own
id; and the record `from_point` returns carries the first reported display
id. -/
theorem c10_id_equals_source_display :
    (∀ env d m, ImplMonitor.new env d = some (Except.ok m) → m.id = d) ∧
    (∀ env ids ms, env.activeDisplays = Except.ok ids →
        ImplMonitor.all env = some (Except.ok ms) →
        ∀ m ∈ ms, ImplMonitor.new env m.id = some (Except.ok m)) ∧
    (∀ env x y m, fromPoint env x y = some (Except.ok m) →
        m.id = (env.displaysAtPoint ⟨x, y⟩).2.headD 0) := by
  refine ⟨fun env d m h => (new_ok_ids env d m h).1, ?_, ?_⟩
  · intro env ids ms ha hr m hm
    have hms := all_ok_eq env ids ms ha hr
    rw [hms] at hm
    rcases List.mem_filterMap.mp hm with ⟨d, _, hd⟩
    have hnew := (newOkOf_eq_some env d m).mp hd
    have hid := (new_ok_ids env d m hnew).1
    rw [hid]
    exact hnew
  · intro env x y m h
    rcases hp : env.displaysAtPoint ⟨x, y⟩ with ⟨code, ids⟩
    rw [fromPoint_char env x y code ids hp] at h
    by_cases hc : code = 0
    · subst hc
      simp only [ne_eq, not_true_eq_false, if_false, ite_false] at h
      cases ids with
      | nil => simp at h
      | cons d t =>
          simp only [List.headD] at h ⊢
          rcases hn : ImplMonitor.new env d with _ | r <;> rw [hn] at h
          · simp at h
          · rcases r with e | m0
            · simp at h
            · by_cases hact : env.isActive m0.cg_display.id = true
              · simp [hact] at h
                rw [← h]
                exact (new_ok_ids env d m0 hn).1
              · simp only [Bool.not_eq_true] at hact
                simp [hact] at h
    · simp [hc] at h

/-- C10 witness: evaluated on `baseEnv` and display 1. -/
theorem c10_witness : monW.id = 1 :=
  c10_id_equals_source_display.1 baseEnv 1 monW rfl
